import Mathlib

/-!
# Verification of the Signal Desktop data-access layer

A shallow embedding of the encrypted data-access layer of the
signal-desktop MCP server (`signal-db.js`): key resolution, the
encrypted connector (`open`/`close`), and the conversation/message
query engine (`listChats`, `getChatMessages`, `searchChat`,
`formatMessage`).

Modelling conventions:
* JavaScript values that may be `null`/`undefined` become `Option`.
* JavaScript truthiness on strings/numbers is made explicit
  (`truthyStr`, `truthyNat`, `truthyOptNat`).
* Filesystem, environment, platform, keychain and the decrypted
  database content are gathered in a `World` record; the session
  object (`SignalDatabase`) is threaded explicitly.
* External Node built-ins (PBKDF2, AES-CBC, UTF-8 decode, JSON.parse,
  Date.toISOString) are parameters (`CryptoPrims`, `JsPrims`): the
  theorems hold for every implementation of these primitives, which is
  exactly the structural content of the source.
* SQL behaviour is embedded directly: `WHERE` is `List.filter`,
  `ORDER BY timestamp DESC` is a merge sort on a key that places SQL
  `NULL` timestamps last (SQLite treats `NULL` as smallest, so `DESC`
  puts them at the end), `LIMIT l OFFSET o` is `drop o` then `take l`,
  and `body LIKE '%q%'` never matches a `NULL` body and is
  ASCII-case-insensitive.
-/

namespace SignalMCP

/-- JS truthiness for an optional string: `undefined`/`null`/`""` are falsy. -/
def truthyStr : Option String → Bool
  | none => false
  | some s => !(s = "")

/-- JS truthiness for an optional number: `undefined`/`null`/`0` are falsy. -/
def truthyOptNat : Option Nat → Bool
  | none => false
  | some n => !(n = 0)

/-- JS `a || b` on optional strings: keep `a` when truthy, else `b`. -/
def jsOr (a b : Option String) : Option String :=
  if truthyStr a then a else b

/-- JS `v || d` where the fallback `d` is a plain string. -/
def jsGetD (v : Option String) (d : String) : String :=
  if truthyStr v then v.getD d else d

/-- `path.join`, modelled with a forward-slash separator. -/
def pjoin (parts : List String) : String :=
  String.intercalate "/" parts

/-- `getDefaultSignalDir` from `signal-db.js`: the OS-specific default data
directory; on linux the Flatpak location is preferred when it exists; an
unsupported platform throws. -/
def getDefaultSignalDir (platform home : String) (flatpakExists : Bool) :
    Except String String :=
  if platform = "win32" then
    .ok (pjoin [home, "AppData", "Roaming", "Signal"])
  else if platform = "darwin" then
    .ok (pjoin [home, "Library", "Application Support", "Signal"])
  else if platform = "linux" then
    if flatpakExists then
      .ok (pjoin [home, ".var", "app", "org.signal.Signal", "config", "Signal"])
    else
      .ok (pjoin [home, ".config", "Signal"])
  else
    .error ("Unsupported OS: " ++ platform)

/-- `isValidPath` from `signal-db.js`: a caller/environment-supplied value is
usable unless it is absent, empty, or looks like an unsubstituted MCPB
template placeholder (starts with a literal dollar-brace and has a closing
brace somewhere after it). -/
def isValidPath : Option String → Bool
  | none => false
  | some value =>
    if value = "" then false
    else if value.startsWith "$\x7b" && value.contains '\x7d' then false
    else true

/-- One hexadecimal digit, or `none`. -/
def hexDigit? (c : Char) : Option Nat :=
  if '0' ≤ c ∧ c ≤ '9' then some (c.toNat - 48)
  else if 'a' ≤ c ∧ c ≤ 'f' then some (c.toNat - 87)
  else if 'A' ≤ c ∧ c ≤ 'F' then some (c.toNat - 55)
  else none

/-- `Buffer.from(s, "hex")`: decode hex digit pairs, stopping at the first
character pair that is not two hex digits (a dangling odd digit is dropped). -/
def hexDecodeAux : List Char → List Nat
  | c1 :: c2 :: rest =>
    match hexDigit? c1, hexDigit? c2 with
    | some hi, some lo => (hi * 16 + lo) :: hexDecodeAux rest
    | _, _ => []
  | _ => []

/-- Decode a hex string to its byte list, Node `Buffer.from(·, "hex")` style. -/
def hexDecode (s : String) : List Nat :=
  hexDecodeAux s.toList

/-- The 3-byte version tag `v10` that prefixes the keychain-wrapped key. -/
def v10Tag : List Nat := [118, 49, 48]

/-- The PBKDF2 salt `"saltysalt"` as bytes. -/
def saltBytes : List Nat := [115, 97, 108, 116, 121, 115, 97, 108, 116]

/-- The fixed AES-CBC initialization vector: sixteen 0x20 (space) bytes. -/
def iv16 : List Nat := List.replicate 16 32

/-- The external Node `crypto` primitives used by `decryptKey`, taken as
parameters: a PBKDF2-SHA1 derivation (password, salt, iterations, key
length), an AES-128-CBC decryption (key, iv, ciphertext; `none` models a
padding/decryption failure thrown by `decipher.final()`), and a UTF-8
decoder. -/
structure CryptoPrims where
  pbkdf2sha1 : String → List Nat → Nat → Nat → List Nat
  aes128CbcDecrypt : List Nat → List Nat → List Nat → Option (List Nat)
  utf8Decode : List Nat → String

/-- `decryptKey` from `signal-db.js`: reject unless the hex-decoded bytes
start with `v10`; otherwise PBKDF2-SHA1-derive a 16-byte key from the
password with salt `"saltysalt"` and 1003 iterations, AES-128-CBC-decrypt
the remaining bytes under the all-spaces IV, and UTF-8-decode the result. -/
def decryptKey (cp : CryptoPrims) (password encryptedKeyHex : String) :
    Except String String :=
  let encryptedKey := hexDecode encryptedKeyHex
  if encryptedKey.take 3 ≠ v10Tag then
    .error "Encrypted key does not start with v10"
  else
    let ciphertext := encryptedKey.drop 3
    let key := cp.pbkdf2sha1 password saltBytes 1003 16
    match cp.aes128CbcDecrypt key iv16 ciphertext with
    | some plain => .ok (cp.utf8Decode plain)
    | none => .error "bad decrypt"

/-- The parsed shape of `<dataDirectory>/config.json`. -/
structure ConfigJson where
  key : Option String
  encryptedKey : Option String
deriving DecidableEq

/-- A conversation row as selected by the queries (nullable columns are
`Option`). -/
structure ConversationRow where
  id : String
  serviceId : Option String
  name : Option String
  profileName : Option String
  e164 : Option String
  convType : String
  json : Option String
deriving DecidableEq

/-- A message row as selected by the queries (`sentAt` is the `sent_at`
column, `msgType` the `type` column). -/
structure MessageRow where
  id : String
  conversationId : String
  timestamp : Option Nat
  sentAt : Option Nat
  source : Option String
  sourceServiceId : Option String
  body : Option String
  json : Option String
  hasAttachments : Option Nat
  msgType : Option String
deriving DecidableEq

/-- The decrypted database content: the two tables the engine queries, and
the `items` row `uuid_id`'s truthy `value` (the self service id),
pre-resolved to `none` when absent, unparseable or falsy. -/
structure Db where
  conversations : List ConversationRow
  messages : List MessageRow
  uuidIdValue : Option String
deriving DecidableEq

/-- Everything outside the session object: platform, home directory,
Flatpak presence, the two environment variables, the state of
`config.json` (`none` = file absent, `some none` = present but
unreadable/unparseable, `some (some cfg)` = parsed), the macOS keychain
password (`none` = `security` lookup failed), whether `sql/db.sqlite`
exists, the key that actually decrypts it, and its content. -/
structure World where
  platform : String
  home : String
  flatpakExists : Bool
  envSourceDir : Option String
  envKey : Option String
  config : Option (Option ConfigJson)
  keychainPassword : Option String
  dbFileExists : Bool
  correctKey : String
  db : Db

/-- `getEncryptionKey` from `signal-db.js`: the provided key wins when
truthy; else the truthy `key` field of a parsed `config.json`; else, on
darwin with a truthy `encryptedKey`, the keychain password is fetched and
`decryptKey` applied, every failure on that path being caught and treated
as no key; else `null`. -/
def getEncryptionKey (cp : CryptoPrims) (w : World) (_sourceDir : String)
    (providedKey : Option String) : Option String :=
  if truthyStr providedKey then providedKey
  else
    match w.config with
    | none => none
    | some none => none
    | some (some config) =>
      if truthyStr config.key then config.key
      else if truthyStr config.encryptedKey && (w.platform = "darwin") then
        match w.keychainPassword with
        | none => none
        | some password =>
          match decryptKey cp password (config.encryptedKey.getD "") with
          | .ok k => some k
          | .error _ => none
      else none

/-- The session object: the fields of class `SignalDatabase` (the handle
slot `db` is `none` when closed). -/
structure SignalDatabase where
  password : Option String
  key : Option String
  sourceDir : String
  db : Option Db
  selfServiceId : Option String
deriving DecidableEq

/-- The `SignalDatabase` constructor: resolve the data directory from the
argument, the `SIGNAL_SOURCE_DIR` environment variable, or the OS default
(the only failing case, on an unsupported platform); store `password` and
`key` untouched; start closed. -/
def mkSignalDatabase (w : World) (sourceDir password key : Option String) :
    Except String SignalDatabase :=
  let resolvedSourceDir : Option String :=
    if isValidPath sourceDir then sourceDir
    else if isValidPath w.envSourceDir then w.envSourceDir
    else none
  match resolvedSourceDir with
  | some d =>
    .ok { password := password, key := key, sourceDir := d,
          db := none, selfServiceId := none }
  | none =>
    (getDefaultSignalDir w.platform w.home w.flatpakExists).map fun d =>
      { password := password, key := key, sourceDir := d,
        db := none, selfServiceId := none }

/-- Observable side effects of `open()`, used to state that a second
`open()` re-does no work. -/
inductive Event where
  | keyResolved
  | verifyQuery
  | selfContactLoaded
deriving DecidableEq

/-- The errors `open()` can throw. -/
inductive OpenError where
  | dbNotFound (path : String)
  | keyNotFound (dir : String)
  | openFailed (msg : String)
deriving DecidableEq

/-- The caller/environment key gate at the top of `open()`: the field `key`
if valid, else `SIGNAL_KEY` if valid, else `undefined`. -/
def resolveProvidedKey (key envKey : Option String) : Option String :=
  if isValidPath key then key
  else if isValidPath envKey then envKey
  else none

/-- `open` from `signal-db.js`: return the existing handle when one is
cached (no events); otherwise check the database file exists, resolve the
key (caller/env gate then `getEncryptionKey`), open with the fixed cipher
profile, run the verification query (modelled as comparing the resolved
key with the key that actually decrypts the file), and best-effort load
the self contact. -/
def SignalDatabase.openDb (cp : CryptoPrims) (w : World) (s : SignalDatabase) :
    Except OpenError (Db × SignalDatabase × List Event) :=
  match s.db with
  | some handle => .ok (handle, s, [])
  | none =>
    if !w.dbFileExists then
      .error (.dbNotFound (pjoin [s.sourceDir, "sql", "db.sqlite"]))
    else
      let providedKey := resolveProvidedKey s.key w.envKey
      match getEncryptionKey cp w s.sourceDir providedKey with
      | none => .error (.keyNotFound s.sourceDir)
      | some encKey =>
        if encKey = w.correctKey then
          .ok (w.db,
               { s with db := some w.db, selfServiceId := w.db.uuidIdValue },
               [.keyResolved, .verifyQuery, .selfContactLoaded])
        else
          .error (.openFailed "Failed to open Signal database")

/-- `close` from `signal-db.js`: release the handle when open, no-op when
closed. -/
def SignalDatabase.close (s : SignalDatabase) : SignalDatabase :=
  { s with db := none }

/-- The parsed shape of a conversation row's auxiliary JSON payload. -/
structure ConvJson where
  name : Option String
  profileName : Option String
  groupName : Option String

/-- The `quote` object of a message's auxiliary JSON payload. -/
structure QuoteObj where
  text : Option String

/-- The `sticker` object of a message's auxiliary JSON payload. -/
structure StickerObj where
  emoji : Option String
  packId : Option String

/-- The parsed shape of a message row's auxiliary JSON payload; a present
`reactions` field is kept even when the list is empty (a JS array is
truthy). -/
structure MsgJson where
  reactions : Option (List String)
  quote : Option QuoteObj
  sticker : Option StickerObj

/-- The external JS built-ins used by formatting, taken as parameters:
`Date.toISOString` on a millisecond timestamp, and `JSON.parse` into the
two payload shapes (`none` models a thrown parse error). -/
structure JsPrims where
  isoString : Nat → String
  parseConvJson : String → Option ConvJson
  parseMsgJson : String → Option MsgJson

/-- The display-name chain shared by `listChats`, `getChatMessages` and
`searchChat`: direct `name` field, else `profileName`, else (when those
are falsy and the auxiliary JSON is truthy and parses) the JSON `name`,
`profileName`, `groupName` chain. -/
def resolveDisplayName (jp : JsPrims) (conv : ConversationRow) : Option String :=
  let displayName := jsOr conv.name conv.profileName
  if !(truthyStr displayName) && truthyStr conv.json then
    match jp.parseConvJson (conv.json.getD "") with
    | some jsonData =>
      jsOr jsonData.name (jsOr jsonData.profileName jsonData.groupName)
    | none => displayName
  else displayName

/-- The conversation lookup shared by `getChatMessages` and `searchChat`:
first row whose `name` or `profileName` column equals the chat name
(`LIMIT 1` in storage order; SQL `NULL = x` never matches). -/
def findConversation (db : Db) (chatName : String) : Option ConversationRow :=
  db.conversations.find? fun c =>
    c.name == some chatName || c.profileName == some chatName

/-- Sort key for `ORDER BY timestamp DESC`: SQL `NULL` is smallest, so a
`NULL` timestamp sorts after every present one in descending order. -/
def tsKey (m : MessageRow) : Nat :=
  match m.timestamp with
  | none => 0
  | some t => t + 1

/-- `ORDER BY timestamp DESC` as a stable insertion sort. -/
def sortDescByTs (rows : List MessageRow) : List MessageRow :=
  rows.insertionSort fun a b => tsKey b ≤ tsKey a

/-- One formatted output message. -/
structure FormattedMessage where
  date : String
  sender : String
  body : String
  quote : String
  sticker : String
  reactions : List String
  attachments : String
deriving DecidableEq

/-- `formatMessage` from `signal-db.js`: timestamp is `sentAt || timestamp`
rendered ISO (empty when falsy); the sender is `"Me"` when
`sourceServiceId === selfServiceId` (JS `null === null` is true, so both
absent also matches) or the row type is `"outgoing"`, else the supplied
contact name; quote/sticker/reactions are scraped from the auxiliary JSON
with every failure yielding the default. -/
def formatMessage (jp : JsPrims) (selfServiceId : Option String)
    (msg : MessageRow) (contactName : String) : FormattedMessage :=
  let ts : Option Nat := if truthyOptNat msg.sentAt then msg.sentAt else msg.timestamp
  let date := if truthyOptNat ts then jp.isoString (ts.getD 0) else ""
  let isFromSelf :=
    msg.sourceServiceId == selfServiceId || msg.msgType == some "outgoing"
  let sender := if isFromSelf then "Me" else contactName
  let jsonLoaded : Option MsgJson :=
    match msg.json with
    | none => none
    | some j => jp.parseMsgJson j
  let reactions :=
    match jsonLoaded with
    | some mj => mj.reactions.getD []
    | none => []
  let quote :=
    match jsonLoaded with
    | some mj =>
      match mj.quote with
      | some q => jsGetD q.text ""
      | none => ""
    | none => ""
  let sticker :=
    match jsonLoaded with
    | some mj =>
      match mj.sticker with
      | some st => jsGetD st.emoji (jsGetD st.packId "")
      | none => ""
    | none => ""
  { date := date
    sender := sender
    body := jsGetD msg.body ""
    quote := quote
    sticker := sticker
    reactions := reactions
    attachments := if truthyOptNat msg.hasAttachments then "yes" else "" }

/-- ASCII lower-casing, the case folding SQLite's default `LIKE` applies. -/
def asciiLower (c : Char) : Char :=
  if 'A' ≤ c ∧ c ≤ 'Z' then Char.ofNat (c.toNat + 32) else c

/-- Contiguous-sublist test on characters (the empty pattern matches
everything). -/
def listSubstr (sub : List Char) : List Char → Bool
  | [] => sub.isEmpty
  | c :: rest => sub.isPrefixOf (c :: rest) || listSubstr sub rest

/-- SQLite `body LIKE '%' || q || '%'`: ASCII-case-insensitive substring
containment. -/
def likeContains (body q : String) : Bool :=
  listSubstr (q.toList.map asciiLower) (body.toList.map asciiLower)

/-- The `LIKE` predicate over the nullable `body` column: a SQL `NULL`
body never matches `LIKE`. -/
def bodyLike (m : MessageRow) (q : String) : Bool :=
  match m.body with
  | none => false
  | some b => likeContains b q

/-- Options of `getChatMessages` with their JS defaults. -/
structure GetMessagesOptions where
  limit : Option Nat := none
  offset : Nat := 0
deriving DecidableEq

/-- Options of `searchChat`. -/
structure SearchOptions where
  limit : Option Nat := none
deriving DecidableEq

/-- Options of `listChats` with their JS defaults. -/
structure ListChatsOptions where
  includeEmpty : Bool := false
  chats : Option String := none
deriving DecidableEq

/-- The message query of `getChatMessages`: rows of the conversation,
newest first; `if (limit)` (JS truthiness, so a zero limit is unset)
appends `LIMIT limit OFFSET offset`, else a positive offset appends
`LIMIT -1 OFFSET offset` (skip without capping). -/
def selectChatRows (db : Db) (convId : String) (limit : Option Nat)
    (offset : Nat) : List MessageRow :=
  let rows := sortDescByTs (db.messages.filter fun m => m.conversationId == convId)
  if truthyOptNat limit then (rows.drop offset).take (limit.getD 0)
  else if 0 < offset then rows.drop offset
  else rows

/-- The message query of `searchChat`: rows of the conversation whose body
matches `LIKE '%query%'`, newest first; `if (limit)` appends
`LIMIT limit`. -/
def selectSearchRows (db : Db) (convId : String) (q : String)
    (limit : Option Nat) : List MessageRow :=
  let rows := sortDescByTs
    (db.messages.filter fun m => m.conversationId == convId && bodyLike m q)
  if truthyOptNat limit then rows.take (limit.getD 0) else rows

/-- `getChatMessages` from `signal-db.js`: open on demand, look the
conversation up by name (not found yields `[]`, no error), query with
pagination, format every row with the resolved contact name defaulting to
`"Unknown"`. -/
def SignalDatabase.getChatMessages (cp : CryptoPrims) (jp : JsPrims)
    (w : World) (s : SignalDatabase) (chatName : String)
    (options : GetMessagesOptions) :
    Except OpenError (List FormattedMessage × SignalDatabase) :=
  match s.openDb cp w with
  | .error e => .error e
  | .ok (db, s', _) =>
    match findConversation db chatName with
    | none => .ok ([], s')
    | some conversation =>
      let contactName := resolveDisplayName jp conversation
      let rows := selectChatRows db conversation.id options.limit options.offset
      .ok (rows.map
            (fun m => formatMessage jp s'.selfServiceId m (jsGetD contactName "Unknown")),
           s')

/-- `searchChat` from `signal-db.js`: open on demand, look the conversation
up by name (not found yields `[]`, no error), query with the `LIKE`
filter and optional limit, format every row with the resolved contact
name defaulting to `"Unknown"`. -/
def SignalDatabase.searchChat (cp : CryptoPrims) (jp : JsPrims) (w : World)
    (s : SignalDatabase) (chatName q : String) (options : SearchOptions) :
    Except OpenError (List FormattedMessage × SignalDatabase) :=
  match s.openDb cp w with
  | .error e => .error e
  | .ok (db, s', _) =>
    match findConversation db chatName with
    | none => .ok ([], s')
    | some conversation =>
      let contactName := resolveDisplayName jp conversation
      let rows := selectSearchRows db conversation.id q options.limit
      .ok (rows.map
            (fun m => formatMessage jp s'.selfServiceId m (jsGetD contactName "Unknown")),
           s')

/-- One entry of `listChats`' result. -/
structure ChatInfo where
  id : String
  serviceId : String
  name : Option String
  number : Option String
  profileName : Option String
  convType : String
  totalMessages : Nat
deriving DecidableEq

/-- `listChats` from `signal-db.js`: every private/group conversation with
its message count, zero-count rows dropped unless `includeEmpty`, display
name resolved by the shared chain (`null` when falsy), and an optional
post-filter by the comma-separated `chats` id list matching either the id
or the resolved service id. -/
def SignalDatabase.listChats (cp : CryptoPrims) (jp : JsPrims) (w : World)
    (s : SignalDatabase) (options : ListChatsOptions) :
    Except OpenError (List ChatInfo × SignalDatabase) :=
  match s.openDb cp w with
  | .error e => .error e
  | .ok (db, s', _) =>
  let conversations := db.conversations.filter fun c =>
    c.convType == "private" || c.convType == "group"
  let chatInfos := conversations.filterMap fun conv =>
    let messageCount :=
      (db.messages.filter fun m => m.conversationId == conv.id).length
    if !options.includeEmpty && messageCount == 0 then none
    else
      let displayName := resolveDisplayName jp conv
      some { id := conv.id
             serviceId := jsGetD conv.serviceId conv.id
             name := if truthyStr displayName then displayName else none
             number := conv.e164
             profileName := conv.profileName
             convType := conv.convType
             totalMessages := messageCount }
  if truthyStr options.chats then
    let chatIds := ((options.chats.getD "").splitOn ",").map String.trim
    .ok (chatInfos.filter
          (fun c => chatIds.contains c.id || chatIds.contains c.serviceId),
         s')
  else
    .ok (chatInfos, s')

/-- What the `config.json` `key`-field source yields: the field when the
file exists, parses, and the field is truthy. (Statement vocabulary for
the resolution-order theorem.) -/
def keySourceConfig (w : World) : Option String :=
  match w.config with
  | some (some config) => if truthyStr config.key then config.key else none
  | _ => none

/-- What the keychain source yields: on darwin, with a truthy
`encryptedKey` in a parsed `config.json`, a retrievable keychain password,
and a successful `decryptKey`. (Statement vocabulary for the
resolution-order theorem.) -/
def keySourceKeychain (cp : CryptoPrims) (w : World) : Option String :=
  match w.config with
  | some (some config) =>
    if truthyStr config.encryptedKey && (w.platform = "darwin") then
      match w.keychainPassword with
      | none => none
      | some password =>
        match decryptKey cp password (config.encryptedKey.getD "") with
        | .ok k => some k
        | .error _ => none
    else none
  | _ => none

/-- Forget the stored password (used to state password noninterference). -/
def scrub (s : SignalDatabase) : SignalDatabase := { s with password := none }

/-- Replace the stored password. -/
def setPassword (s : SignalDatabase) (p : Option String) : SignalDatabase :=
  { s with password := p }

/-! ### Concrete fixtures used by witnesses and counterexamples -/

/-- Concrete crypto primitives: identity-like stand-ins. -/
def cp0 : CryptoPrims :=
  { pbkdf2sha1 := fun _ _ _ _ => List.replicate 16 0
    aes128CbcDecrypt := fun _ _ ciphertext => some ciphertext
    utf8Decode := fun bs => String.mk (bs.map Char.ofNat) }

/-- Concrete JS primitives: numeric timestamp rendering, no JSON payloads
parse. -/
def jp0 : JsPrims :=
  { isoString := fun n => toString n
    parseConvJson := fun _ => none
    parseMsgJson := fun _ => none }

/-- A private conversation named Alice. -/
def convAlice : ConversationRow :=
  { id := "c1", serviceId := none, name := some "Alice", profileName := none,
    e164 := none, convType := "private", json := none }

/-- A private conversation named Bob. -/
def convBob : ConversationRow :=
  { id := "c2", serviceId := none, name := some "Bob", profileName := none,
    e164 := none, convType := "private", json := none }

/-- Message fixture in conversation `c1`. -/
def mkMsg (i : String) (t : Nat) (b : Option String) : MessageRow :=
  { id := i, conversationId := "c1", timestamp := some t, sentAt := some t,
    source := none, sourceServiceId := some "peer", body := b, json := none,
    hasAttachments := none, msgType := some "incoming" }

/-- Database with three Alice messages (stored out of timestamp order). -/
def db4 : Db :=
  { conversations := [convAlice]
    messages := [mkMsg "m10" 10 (some "be"), mkMsg "m30" 30 (some "hello"),
                 mkMsg "m20" 20 (some "bye")]
    uuidIdValue := none }

/-- Database with only Bob. -/
def db5 : Db :=
  { conversations := [convBob], messages := [], uuidIdValue := none }

/-- Database where Alice's single message has a SQL NULL body. -/
def db7 : Db :=
  { conversations := [convAlice], messages := [mkMsg "m1" 5 none],
    uuidIdValue := none }

/-- Database where Alice has one NULL-body and one present-body message. -/
def db7b : Db :=
  { conversations := [convAlice]
    messages := [mkMsg "m1" 5 none, mkMsg "m2" 9 (some "hi")]
    uuidIdValue := none }

/-- A world with no key source at all (no config, no env, no keychain). -/
def w1 : World :=
  { platform := "linux", home := "/home/u", flatpakExists := false,
    envSourceDir := none, envKey := none, config := none,
    keychainPassword := none, dbFileExists := true, correctKey := "K",
    db := db4 }

/-- An open session onto `db4`. -/
def s4 : SignalDatabase :=
  { password := none, key := none, sourceDir := "/sig", db := some db4,
    selfServiceId := none }

/-- An open session onto `db5`. -/
def s5 : SignalDatabase :=
  { password := none, key := none, sourceDir := "/sig", db := some db5,
    selfServiceId := none }

/-- An open session onto `db7`. -/
def s7 : SignalDatabase :=
  { password := none, key := none, sourceDir := "/sig", db := some db7,
    selfServiceId := none }

/-- An open session onto `db7b`. -/
def s7b : SignalDatabase :=
  { password := none, key := none, sourceDir := "/sig", db := some db7b,
    selfServiceId := none }

/-! ### Helper lemmas -/

theorem isSome_of_truthy {v : Option String} (h : truthyStr v = true) :
    v.isSome = true := by
  cases v with
  | none => simp [truthyStr] at h
  | some s => rfl

theorem sortDescByTs_pairwise (rows : List MessageRow) :
    (sortDescByTs rows).Pairwise fun a b => tsKey b ≤ tsKey a := by
  haveI : IsTotal MessageRow fun a b => tsKey b ≤ tsKey a :=
    ⟨fun a b => Nat.le_total _ _⟩
  haveI : IsTrans MessageRow fun a b => tsKey b ≤ tsKey a :=
    ⟨fun _ _ _ h1 h2 => Nat.le_trans h2 h1⟩
  exact List.sorted_insertionSort _ rows

theorem sortDescByTs_length (rows : List MessageRow) :
    (sortDescByTs rows).length = rows.length :=
  (List.perm_insertionSort _ rows).length_eq

theorem selectChatRows_pairwise (db : Db) (cid : String) (lim : Option Nat)
    (off : Nat) :
    (selectChatRows db cid lim off).Pairwise fun a b => tsKey b ≤ tsKey a := by
  unfold selectChatRows
  have hs := sortDescByTs_pairwise (db.messages.filter fun m => m.conversationId == cid)
  split
  · exact List.Pairwise.sublist
      ((List.take_sublist _ _).trans (List.drop_sublist _ _)) hs
  · split
    · exact List.Pairwise.sublist (List.drop_sublist _ _) hs
    · exact hs

theorem selectSearchRows_pairwise (db : Db) (cid q : String) (lim : Option Nat) :
    (selectSearchRows db cid q lim).Pairwise fun a b => tsKey b ≤ tsKey a := by
  unfold selectSearchRows
  have hs := sortDescByTs_pairwise
    (db.messages.filter fun m => m.conversationId == cid && bodyLike m q)
  split
  · exact List.Pairwise.sublist (List.take_sublist _ _) hs
  · exact hs

theorem getEncryptionKey_none (cp : CryptoPrims) (w : World) (dir : String) :
    getEncryptionKey cp w dir none =
      if (keySourceConfig w).isSome then keySourceConfig w
      else keySourceKeychain cp w := by
  unfold getEncryptionKey keySourceConfig keySourceKeychain
  rw [if_neg (by decide : ¬truthyStr none = true)]
  cases hc : w.config with
  | none => simp
  | some oc =>
    cases oc with
    | none => simp
    | some config =>
      by_cases hk : truthyStr config.key
      · simp [hk, isSome_of_truthy hk]
      · simp [hk]

theorem openDb_of_open (cp : CryptoPrims) (w : World) {s : SignalDatabase}
    {db : Db} (h : s.db = some db) : s.openDb cp w = .ok (db, s, []) := by
  unfold SignalDatabase.openDb
  rw [h]

theorem getChatMessages_of_open (cp : CryptoPrims) (jp : JsPrims) (w : World)
    {s : SignalDatabase} {db : Db} {conv : ConversationRow} {chatName : String}
    (hdb : s.db = some db) (hconv : findConversation db chatName = some conv)
    (opts : GetMessagesOptions) :
    s.getChatMessages cp jp w chatName opts =
      .ok ((selectChatRows db conv.id opts.limit opts.offset).map
            (fun m => formatMessage jp s.selfServiceId m
              (jsGetD (resolveDisplayName jp conv) "Unknown")), s) := by
  unfold SignalDatabase.getChatMessages
  rw [openDb_of_open cp w hdb]
  simp [hconv]

theorem searchChat_of_open (cp : CryptoPrims) (jp : JsPrims) (w : World)
    {s : SignalDatabase} {db : Db} {conv : ConversationRow} {chatName : String}
    (hdb : s.db = some db) (hconv : findConversation db chatName = some conv)
    (q : String) (opts : SearchOptions) :
    s.searchChat cp jp w chatName q opts =
      .ok ((selectSearchRows db conv.id q opts.limit).map
            (fun m => formatMessage jp s.selfServiceId m
              (jsGetD (resolveDisplayName jp conv) "Unknown")), s) := by
  unfold SignalDatabase.searchChat
  rw [openDb_of_open cp w hdb]
  simp [hconv]

/-! ### Claims -/

/-- C2: keychain key unwrapping — for every password and hex input,
decryption is rejected when the decoded bytes do not begin with the
3-byte tag `v10`; otherwise the bytes after the tag are AES-128-CBC
decrypted (IV = sixteen 0x20 bytes) under the 16-byte PBKDF2-SHA1 key
derived from the password with salt `"saltysalt"` and 1003 iterations and
the plaintext UTF-8 decoded; and a structural failure leaves overall
resolution with no key from this source rather than an error. -/
theorem c2_decrypt_key_unwrapping (cp : CryptoPrims) (password hexStr : String) :
    ((hexDecode hexStr).take 3 ≠ v10Tag →
      decryptKey cp password hexStr = .error "Encrypted key does not start with v10")
    ∧ ((hexDecode hexStr).take 3 = v10Tag →
        (∀ plain,
          cp.aes128CbcDecrypt (cp.pbkdf2sha1 password saltBytes 1003 16) iv16
              ((hexDecode hexStr).drop 3) = some plain →
          decryptKey cp password hexStr = .ok (cp.utf8Decode plain))
        ∧ (cp.aes128CbcDecrypt (cp.pbkdf2sha1 password saltBytes 1003 16) iv16
              ((hexDecode hexStr).drop 3) = none →
            ∃ e, decryptKey cp password hexStr = .error e))
    ∧ (∀ (w : World) (dir : String) (config : ConfigJson) (e : String),
        w.config = some (some config) → truthyStr config.key = false →
        w.keychainPassword = some password →
        decryptKey cp password (config.encryptedKey.getD "") = .error e →
        getEncryptionKey cp w dir none = none) := by
  refine ⟨fun hne => ?_, ⟨fun heq => ⟨fun plain hdec => ?_, fun hdec => ?_⟩,
    fun w dir config e hc hk hpw hde => ?_⟩⟩
  · unfold decryptKey
    rw [if_pos hne]
  · unfold decryptKey
    rw [if_neg (by simp [heq])]
    simp [hdec]
  · unfold decryptKey
    rw [if_neg (by simp [heq])]
    simp only [hdec]
    exact ⟨_, rfl⟩
  · have hcfg : keySourceConfig w = none := by
      simp [keySourceConfig, hc, hk]
    have hkc : keySourceKeychain cp w = none := by
      simp only [keySourceKeychain, hc]
      split
      · simp only [hpw, hde]
      · rfl
    rw [getEncryptionKey_none cp w dir, hcfg, hkc]
    simp

/-- C2 witness: a concrete `v10`-prefixed hex string with mixed-case
letter digits decrypts to the UTF-8 decoding of the primitive's output on
the bytes after the tag. -/
theorem c2_decrypt_key_unwrapping_witness :
    decryptKey cp0 "pw" "763130aB4F" =
      .ok (String.mk [Char.ofNat 171, Char.ofNat 79]) :=
  ((c2_decrypt_key_unwrapping cp0 "pw" "763130aB4F").2.1 rfl).1 [171, 79] rfl

/-- C3: a caller- or environment-supplied override is treated as absent
exactly when it is missing, empty, or an unsubstituted template
placeholder — a literal dollar-brace opening with a closing brace later
in the string. -/
theorem c3_placeholder_validity (v : Option String) :
    isValidPath v = false ↔
      (v = none ∨ v = some "" ∨
        ∃ s, v = some s ∧ s.startsWith "$\x7b" = true ∧ s.contains '\x7d' = true) := by
  cases v with
  | none => simp [isValidPath]
  | some s =>
    by_cases h1 : s = ""
    · simp [isValidPath, h1]
    · by_cases h2 : s.startsWith "$\x7b" = true ∧ s.contains '\x7d' = true
      · simp [isValidPath, h1, h2.1, h2.2]
      · have : (s.startsWith "$\x7b" && s.contains '\x7d') = false := by
          rcases Decidable.not_and_iff_or_not.mp h2 with h | h
          · simp [Bool.eq_false_iff.mpr h]
          · simp [Bool.eq_false_iff.mpr h]
        simp [isValidPath, h1, this]
        intro hs
        rcases Decidable.not_and_iff_or_not.mp h2 with h | h <;>
          simp_all

/-- C4: pagination — against an open session, for a conversation holding
`N` messages, `getMessages` with a set (nonzero) limit `L` and offset `O`
returns exactly `min L (N - O)` messages (the claim's `min(L, max(0,N-O))`
in truncated ℕ subtraction), newest first (non-increasing timestamp key);
with the limit unset and `O > 0` all `N - O` remaining messages are
returned, also newest first. -/
theorem c4_pagination (cp : CryptoPrims) (jp : JsPrims) (w : World)
    (s : SignalDatabase) (db : Db) (conv : ConversationRow) (chatName : String)
    (L O N : Nat) (hdb : s.db = some db)
    (hconv : findConversation db chatName = some conv)
    (hN : N = (db.messages.filter fun m => m.conversationId == conv.id).length)
    (hL : 0 < L) :
    (s.getChatMessages cp jp w chatName { limit := some L, offset := O } =
        .ok ((selectChatRows db conv.id (some L) O).map
              (fun m => formatMessage jp s.selfServiceId m
                (jsGetD (resolveDisplayName jp conv) "Unknown")), s)
      ∧ (selectChatRows db conv.id (some L) O).length = min L (N - O)
      ∧ (selectChatRows db conv.id (some L) O).Pairwise
          fun a b => tsKey b ≤ tsKey a)
    ∧ (0 < O →
        s.getChatMessages cp jp w chatName { limit := none, offset := O } =
          .ok ((selectChatRows db conv.id none O).map
                (fun m => formatMessage jp s.selfServiceId m
                  (jsGetD (resolveDisplayName jp conv) "Unknown")), s)
        ∧ (selectChatRows db conv.id none O).length = N - O
        ∧ (selectChatRows db conv.id none O).Pairwise
            fun a b => tsKey b ≤ tsKey a) := by
  refine ⟨⟨getChatMessages_of_open cp jp w hdb hconv _, ?_, selectChatRows_pairwise db conv.id _ _⟩,
    fun hO => ⟨getChatMessages_of_open cp jp w hdb hconv _, ?_, selectChatRows_pairwise db conv.id _ _⟩⟩
  · have hLt : truthyOptNat (some L) = true := by
      simp [truthyOptNat, hL.ne']
    simp [selectChatRows, hLt, List.length_take, List.length_drop,
      sortDescByTs_length, hN]
  · have : truthyOptNat none = false := rfl
    simp [selectChatRows, this, hO, List.length_drop, sortDescByTs_length, hN]

/-- C4 witness: with three messages, limit 2 and offset 1 select exactly
`min 2 (3 - 1) = 2` rows. -/
theorem c4_pagination_witness :
    (selectChatRows db4 convAlice.id (some 2) 1).length = min 2 (3 - 1) :=
  ((c4_pagination cp0 jp0 w1 s4 db4 convAlice "Alice" 2 1 3 rfl rfl rfl
    (by decide)).1).2.1

/-- C5: a chat name matching no conversation's direct-name or profile-name
field makes both `getMessages` and `searchMessages` return the empty
sequence on an open session, with no error. -/
theorem c5_not_found_empty (cp : CryptoPrims) (jp : JsPrims) (w : World)
    (s : SignalDatabase) (db : Db) (chatName q : String)
    (gopts : GetMessagesOptions) (sopts : SearchOptions)
    (hdb : s.db = some db)
    (hno : ∀ c ∈ db.conversations,
      c.name ≠ some chatName ∧ c.profileName ≠ some chatName) :
    s.getChatMessages cp jp w chatName gopts = .ok ([], s)
    ∧ s.searchChat cp jp w chatName q sopts = .ok ([], s) := by
  have hfind : findConversation db chatName = none := by
    rw [findConversation, List.find?_eq_none]
    intro c hc
    have h := hno c hc
    simp [h.1, h.2]
  constructor
  · unfold SignalDatabase.getChatMessages
    rw [openDb_of_open cp w hdb]
    simp [hfind]
  · unfold SignalDatabase.searchChat
    rw [openDb_of_open cp w hdb]
    simp [hfind]

/-- C5 witness: looking up Alice in a database that only has Bob yields
empty results from both operations. -/
theorem c5_not_found_empty_witness :
    s5.getChatMessages cp0 jp0 w1 "Alice" {} = .ok ([], s5)
    ∧ s5.searchChat cp0 jp0 w1 "Alice" "x" {} = .ok ([], s5) :=
  c5_not_found_empty cp0 jp0 w1 s5 db5 "Alice" "x" {} {} rfl (by decide)

/-- C6: sender classification — a formatted row carries the self-label
`"Me"` when its `sourceServiceId` equals the cached self identifier (JS
`===`, so two absent values also match) regardless of the `type` field,
or when its type is `"outgoing"` regardless of `sourceServiceId`;
otherwise it carries the resolved display name, `"Unknown"` when that is
absent or empty. -/
theorem c6_sender_classification (jp : JsPrims) (selfId : Option String)
    (msg : MessageRow) (displayName : Option String) :
    (formatMessage jp selfId msg (jsGetD displayName "Unknown")).sender =
      if msg.sourceServiceId = selfId ∨ msg.msgType = some "outgoing" then "Me"
      else if truthyStr displayName then displayName.getD "Unknown"
      else "Unknown" := by
  by_cases h : msg.sourceServiceId = selfId ∨ msg.msgType = some "outgoing"
  · rw [if_pos h]
    rcases h with h | h <;> simp [formatMessage, h]
  · rw [if_neg h]
    push_neg at h
    simp [formatMessage, jsGetD, h.1, h.2]

theorem listSubstr_nil (l : List Char) : listSubstr [] l = true := by
  induction l with
  | nil => rfl
  | cons c rest ih => simp [listSubstr, List.isPrefixOf, ih]

theorem bodyLike_empty (m : MessageRow) : bodyLike m "" = m.body.isSome := by
  cases hb : m.body with
  | none => simp [bodyLike, hb]
  | some b => simp [bodyLike, hb, likeContains, listSubstr_nil]

/-- C7 counterexample: a conversation holding exactly one message — whose
body is SQL `NULL` — yields an empty result from `searchMessages` with the
empty query, so the search does not return all of the conversation's
messages. -/
theorem c7_counterexample :
    findConversation db7 "Alice" = some convAlice
    ∧ (db7.messages.filter fun m => m.conversationId == convAlice.id).length = 1
    ∧ s7.searchChat cp0 jp0 w1 "Alice" "" {} = .ok ([], s7) :=
  ⟨rfl, rfl, rfl⟩

/-- C7 (amended): `searchMessages(name, "")` on an open session returns all
of the conversation's messages whose body is non-NULL (the `LIKE` filter
never matches a SQL `NULL` body), newest first. -/
theorem c7_empty_query_matches_nonnull (cp : CryptoPrims) (jp : JsPrims)
    (w : World) (s : SignalDatabase) (db : Db) (conv : ConversationRow)
    (chatName : String) (hdb : s.db = some db)
    (hconv : findConversation db chatName = some conv) :
    s.searchChat cp jp w chatName "" {} =
      .ok ((sortDescByTs (db.messages.filter fun m =>
              m.conversationId == conv.id && m.body.isSome)).map
            (fun m => formatMessage jp s.selfServiceId m
              (jsGetD (resolveDisplayName jp conv) "Unknown")), s)
    ∧ (sortDescByTs (db.messages.filter fun m =>
          m.conversationId == conv.id && m.body.isSome)).Pairwise
        fun a b => tsKey b ≤ tsKey a := by
  have hsel : selectSearchRows db conv.id "" none =
      sortDescByTs (db.messages.filter fun m =>
        m.conversationId == conv.id && m.body.isSome) := by
    unfold selectSearchRows
    rw [if_neg (by decide : ¬truthyOptNat none = true)]
    congr 1
    apply List.filter_congr
    intro m _
    rw [bodyLike_empty]
  constructor
  · rw [searchChat_of_open cp jp w hdb hconv "" {}]
    rw [show ({} : SearchOptions).limit = none from rfl] at *
    rw [hsel]
  · rw [← hsel]
    exact selectSearchRows_pairwise db conv.id "" none

/-- C7 (amended) witness: with one NULL-body and one present-body message,
the empty-query search returns exactly the present-body message. -/
theorem c7_empty_query_matches_nonnull_witness :
    s7b.searchChat cp0 jp0 w1 "Alice" "" {} =
      .ok ((sortDescByTs (db7b.messages.filter fun m =>
              m.conversationId == convAlice.id && m.body.isSome)).map
            (fun m => formatMessage jp0 s7b.selfServiceId m
              (jsGetD (resolveDisplayName jp0 convAlice) "Unknown")), s7b) :=
  (c7_empty_query_matches_nonnull cp0 jp0 w1 s7b db7b convAlice "Alice"
    rfl rfl).1

/-- C8: the handle slot is a two-state machine — `open()` on an already
open session returns the cached handle unchanged with no observable work
(no key resolution, no verification query), and `close()` empties the
slot, is idempotent, and is a no-op on a closed session. -/
theorem c8_handle_state_machine (cp : CryptoPrims) (w : World)
    (s : SignalDatabase) (handle : Db) (hdb : s.db = some handle) :
    s.openDb cp w = .ok (handle, s, [])
    ∧ s.close.db = none
    ∧ s.close.close = s.close
    ∧ ∀ t : SignalDatabase, t.db = none → t.close = t := by
  refine ⟨openDb_of_open cp w hdb, rfl, rfl, fun t ht => ?_⟩
  cases t
  simp_all [SignalDatabase.close]

/-- C8 witness: opening an already-open session returns the cached
handle, the same state, and an empty event trace. -/
theorem c8_handle_state_machine_witness :
    s7.openDb cp0 w1 = .ok (db7, s7, []) :=
  (c8_handle_state_machine cp0 w1 s7 db7 rfl).1

theorem scrub_setPassword (s : SignalDatabase) (p : Option String) :
    scrub (setPassword s p) = scrub s := by
  cases s
  rfl

theorem setPassword_selfServiceId (s : SignalDatabase) (p : Option String) :
    (setPassword s p).selfServiceId = s.selfServiceId := by
  cases s
  rfl

theorem openDb_setPassword (cp : CryptoPrims) (w : World) (s : SignalDatabase)
    (p : Option String) :
    (setPassword s p).openDb cp w =
      Except.map (fun r => (r.1, setPassword r.2.1 p, r.2.2)) (s.openDb cp w) := by
  cases s with
  | mk pw k sd db si =>
    cases db with
    | some h => rfl
    | none =>
      simp only [SignalDatabase.openDb, setPassword]
      by_cases hf : w.dbFileExists
      · simp only [hf, Bool.not_true, Bool.false_eq_true, if_false]
        cases hk : getEncryptionKey cp w sd (resolveProvidedKey k w.envKey) with
        | none => rfl
        | some ek =>
          by_cases he : ek = w.correctKey <;> simp [he, Except.map]
      · simp [hf, Except.map]

/-- C9: password noninterference — the `password` constructor argument
never influences construction (up to the stored field itself), `open`,
`getMessages`, `searchMessages`, `listConversations`, or `close`: all
observable results agree after forgetting the stored password. -/
theorem c9_password_noninterference (cp : CryptoPrims) (jp : JsPrims)
    (w : World) (sourceDir keyArg p1 p2 : Option String) (s : SignalDatabase)
    (p : Option String) (chatName q : String) (gopts : GetMessagesOptions)
    (sopts : SearchOptions) (lopts : ListChatsOptions) :
    Except.map scrub (mkSignalDatabase w sourceDir p1 keyArg)
      = Except.map scrub (mkSignalDatabase w sourceDir p2 keyArg)
    ∧ Except.map (fun r => (r.1, scrub r.2.1, r.2.2)) ((setPassword s p).openDb cp w)
      = Except.map (fun r => (r.1, scrub r.2.1, r.2.2)) (s.openDb cp w)
    ∧ Except.map (fun r => (r.1, scrub r.2))
        ((setPassword s p).getChatMessages cp jp w chatName gopts)
      = Except.map (fun r => (r.1, scrub r.2))
        (s.getChatMessages cp jp w chatName gopts)
    ∧ Except.map (fun r => (r.1, scrub r.2))
        ((setPassword s p).searchChat cp jp w chatName q sopts)
      = Except.map (fun r => (r.1, scrub r.2))
        (s.searchChat cp jp w chatName q sopts)
    ∧ Except.map (fun r => (r.1, scrub r.2))
        ((setPassword s p).listChats cp jp w lopts)
      = Except.map (fun r => (r.1, scrub r.2)) (s.listChats cp jp w lopts)
    ∧ scrub (setPassword s p).close = scrub s.close := by
  refine ⟨?_, ?_, ?_, ?_, ?_, ?_⟩
  · unfold mkSignalDatabase
    cases hr : (if isValidPath sourceDir then sourceDir
        else if isValidPath w.envSourceDir then w.envSourceDir else none) with
    | some d => simp [scrub, Except.map]
    | none =>
      cases hd : getDefaultSignalDir w.platform w.home w.flatpakExists <;>
        simp [hd, scrub, Except.map]
  · rw [openDb_setPassword cp w s p]
    cases hx : s.openDb cp w <;> simp [Except.map, scrub_setPassword]
  · unfold SignalDatabase.getChatMessages
    rw [openDb_setPassword cp w s p]
    cases hx : s.openDb cp w with
    | error e => rfl
    | ok r =>
      obtain ⟨db, s', tr⟩ := r
      cases hf : findConversation db chatName <;>
        simp [Except.map, hf, scrub_setPassword, setPassword_selfServiceId]
  · unfold SignalDatabase.searchChat
    rw [openDb_setPassword cp w s p]
    cases hx : s.openDb cp w with
    | error e => rfl
    | ok r =>
      obtain ⟨db, s', tr⟩ := r
      cases hf : findConversation db chatName <;>
        simp [Except.map, hf, scrub_setPassword, setPassword_selfServiceId]
  · unfold SignalDatabase.listChats
    rw [openDb_setPassword cp w s p]
    cases hx : s.openDb cp w with
    | error e => rfl
    | ok r =>
      obtain ⟨db, s', tr⟩ := r
      by_cases hch : truthyStr lopts.chats <;>
        simp [Except.map, hch, scrub_setPassword]
  · cases s
    rfl

theorem selectChatRows_zero_limit (db : Db) (cid : String) (O : Nat) :
    selectChatRows db cid (some 0) O = selectChatRows db cid none O := rfl

theorem selectSearchRows_zero_limit (db : Db) (cid q : String) :
    selectSearchRows db cid q (some 0) = selectSearchRows db cid q none := rfl

/-- C10: a supplied limit of 0 is falsy in JS, so both `getMessages` and
`searchMessages` behave exactly as with an unset limit: all messages
after the offset, respectively all matches, are returned. -/
theorem c10_zero_limit_is_unset (cp : CryptoPrims) (jp : JsPrims) (w : World)
    (s : SignalDatabase) (chatName q : String) (O : Nat) :
    s.getChatMessages cp jp w chatName { limit := some 0, offset := O }
      = s.getChatMessages cp jp w chatName { limit := none, offset := O }
    ∧ s.searchChat cp jp w chatName q { limit := some 0 }
      = s.searchChat cp jp w chatName q { limit := none } := by
  constructor
  · unfold SignalDatabase.getChatMessages
    cases hx : s.openDb cp w with
    | error e => rfl
    | ok r =>
      obtain ⟨db, s', tr⟩ := r
      cases hf : findConversation db chatName <;>
        simp [hf, selectChatRows_zero_limit]
  · unfold SignalDatabase.searchChat
    cases hx : s.openDb cp w with
    | error e => rfl
    | ok r =>
      obtain ⟨db, s', tr⟩ := r
      cases hf : findConversation db chatName <;>
        simp [hf, selectSearchRows_zero_limit]

end SignalMCP
